import Mathlib

set_option maxRecDepth 40000

/-
Verification of the xpadneo HID driver (drivers/hid/hid-xpadneo.c).

The driver translates Bluetooth HID reports of Xbox One S/X gamepads into
kernel input events and encodes force-feedback effects into HID output
reports.  The definitions below are a shallow embedding of the driver code:
pure computations become Lean functions, the bitmap side effects of the
input-configured hook become explicit bitmap transformers, and the output
traffic of the initialization routine becomes an explicit action list.

The repository carries the driver in two revisions; the revision embedded
here is the one present in the source tree (module version 0.1.3).  The
dialect classifier, the battery-report decoder and the dialect
mismatch-correction path live only in the second revision, which is not in
the tree; those parts are modelled from the specification and are marked
as such in their doc comments.
-/

/- ===== Linux input-event constants (input-event-codes.h) ===== -/

def EV_KEY : Nat := 0x01
def EV_ABS : Nat := 0x03

def BTN_SOUTH : Nat := 0x130
def BTN_EAST : Nat := 0x131
def BTN_NORTH : Nat := 0x133
def BTN_WEST : Nat := 0x134
def BTN_TL : Nat := 0x136
def BTN_TR : Nat := 0x137
def BTN_SELECT : Nat := 0x13a
def BTN_START : Nat := 0x13b
def BTN_MODE : Nat := 0x13c
def BTN_THUMBL : Nat := 0x13d
def BTN_THUMBR : Nat := 0x13e

def BTN_DPAD_UP : Nat := 0x220
def BTN_DPAD_DOWN : Nat := 0x221
def BTN_DPAD_LEFT : Nat := 0x222
def BTN_DPAD_RIGHT : Nat := 0x223

def ABS_X : Nat := 0x00
def ABS_Y : Nat := 0x01
def ABS_Z : Nat := 0x02
def ABS_RX : Nat := 0x03
def ABS_RY : Nat := 0x04
def ABS_RZ : Nat := 0x05
def ABS_HAT0X : Nat := 0x10
def ABS_HAT0Y : Nat := 0x11

/- ===== HID constants (linux/hid.h) ===== -/

def HID_USAGE_PAGE : Nat := 0xffff0000
def HID_USAGE : Nat := 0x0000ffff
def HID_UP_GENDESK : Nat := 0x00010000
def HID_UP_SIMULATION : Nat := 0x00020000
def HID_UP_BUTTON : Nat := 0x00090000
def HID_UP_CONSUMER : Nat := 0x000c0000

/- ===== FF output report (struct ff_data / struct ff_report) ===== -/

def FF_ENABLE_RMBL_LEFT : Nat := 0b10
def FF_ENABLE_RMBL_RIGHT : Nat := 0b01

/-- The packed rumble payload, one Lean field per byte of struct ff_data. -/
structure ff_data where
  enable_actuators : Nat
  reserved0 : Nat
  reserved1 : Nat
  magnitude_left : Nat
  magnitude_right : Nat
  duration : Nat
  start_delay : Nat
  loop_count : Nat
deriving DecidableEq

structure ff_report where
  report_id : Nat
  ff : ff_data
deriving DecidableEq

/-- Zero-initialized ff_data (the static const ff_clear of the driver). -/
def ff_clear : ff_data := ⟨0, 0, 0, 0, 0, 0, 0, 0⟩

/-- The output report built by xpadneo_ff_play from the 16-bit weak and
strong rumble magnitudes of the force-feedback effect. -/
def xpadneo_ff_play_package (weak strong : Nat) : ff_report :=
  { report_id := 0x03
    ff := { ff_clear with
            enable_actuators := FF_ENABLE_RMBL_RIGHT ||| FF_ENABLE_RMBL_LEFT
            magnitude_right := (weak &&& 0xFF00) >>> 8
            magnitude_left := (strong &&& 0xFF00) >>> 8
            duration := 0xFF
            loop_count := 0xFF } }

/-- xpadneo_ff_play: builds one output report, hands it to the transport
and returns 0.  The integer result of the transport write is ignored by
the driver, which is modelled by the unused write_result argument; the
first component lists the reports written (exactly one, no retry), the
second is the value returned to the input subsystem. -/
def xpadneo_ff_play (weak strong : Nat) (write_result : Int) : List ff_report × Int :=
  ([xpadneo_ff_play_package weak strong], 0)

/- ===== Device initialization (xpadneo_initDevice) ===== -/

/-- One externally visible step of the initialization routine: an output
report handed to the transport, or a busy delay of the given length in
milliseconds (the mdelay call). -/
inductive init_action where
  | send (r : ff_report)
  | delay_ms (n : Nat)
deriving DecidableEq

/-- First hello pulse of xpadneo_initDevice: right actuator only. -/
def xpadneo_hello_right : ff_report :=
  { report_id := 0x03
    ff := { ff_clear with
            enable_actuators := FF_ENABLE_RMBL_RIGHT
            magnitude_right := 0x99
            duration := 50 } }

/-- Second hello pulse of xpadneo_initDevice: left actuator only. -/
def xpadneo_hello_left : ff_report :=
  { report_id := 0x03
    ff := { ff_clear with
            enable_actuators := FF_ENABLE_RMBL_LEFT
            magnitude_left := 0x99
            duration := 50 } }

/-- The sequence of transport actions performed by xpadneo_initDevice
after the output-report sanity checks: hello pulse right, mdelay(500),
hello pulse left. -/
def xpadneo_initDevice_actions : List init_action :=
  [init_action.send xpadneo_hello_right,
   init_action.delay_ms 500,
   init_action.send xpadneo_hello_left]

/- ===== D-pad decode (xpadneo_event, usage 0x39) ===== -/

def dpad_up (value : Int) : Bool :=
  decide ((1 ≤ value ∧ value ≤ 2) ∨ value = 8)

def dpad_right (value : Int) : Bool :=
  decide (2 ≤ value ∧ value ≤ 4)

def dpad_down (value : Int) : Bool :=
  decide (4 ≤ value ∧ value ≤ 6)

def dpad_left (value : Int) : Bool :=
  decide (6 ≤ value ∧ value ≤ 8)

/-- How many of the four synthetic directions are asserted for a value. -/
def dpad_count (value : Int) : Nat :=
  (dpad_up value).toNat + (dpad_right value).toNat +
  (dpad_down value).toNat + (dpad_left value).toNat

/-- Two asserted directions are adjacent on the compass circle
(up-right, right-down, down-left or left-up). -/
def dpad_adjacent_pair (value : Int) : Prop :=
  (dpad_up value = true ∧ dpad_right value = true) ∨
  (dpad_right value = true ∧ dpad_down value = true) ∨
  (dpad_down value = true ∧ dpad_left value = true) ∨
  (dpad_left value = true ∧ dpad_up value = true)

instance (value : Int) : Decidable (dpad_adjacent_pair value) := by
  unfold dpad_adjacent_pair; infer_instance

/- ===== Per-usage event hook (xpadneo_event) ===== -/

/-- The ten fixed gamepad buttons of the mismatch-correction remap
(spec section 4.4): A, B, X, Y, L1, R1, Select, Start, left stick press,
right stick press. -/
inductive XpadBtn where
  | A | B | X | Y | L1 | R1 | Select | Start | LStick | RStick
deriving DecidableEq

/-- An input event pushed to the input subsystem from inside a hook:
either an input_report_key call with a raw key code, or a button event of
the spec-modelled mismatch-correction path. -/
inductive input_event where
  | key (code : Nat) (pressed : Bool)
  | btn (b : XpadBtn) (value : Int)
deriving DecidableEq

def EV_CONT_PROCESSING : Nat := 0
def EV_STOP_PROCESSING : Nat := 1

/-- xpadneo_event of the source revision: on the hat-switch usage
(hid masked with HID_USAGE equals 0x39) it reports the four synthetic
D-pad keys decoded from the hat value and lets processing continue; on
every other usage it does nothing and lets processing continue.  The
dpad_as_buttons module parameter is in scope for the hook but never read
by it, which the unused first argument records. -/
def xpadneo_event (dpad_as_buttons : Bool) (usage_hid : Nat) (value : Int) :
    List input_event × Nat :=
  if usage_hid &&& HID_USAGE = 0x39 then
    ([input_event.key BTN_DPAD_UP (dpad_up value),
      input_event.key BTN_DPAD_RIGHT (dpad_right value),
      input_event.key BTN_DPAD_DOWN (dpad_down value),
      input_event.key BTN_DPAD_LEFT (dpad_left value)],
     EV_CONT_PROCESSING)
  else ([], EV_CONT_PROCESSING)

/- ===== Input mapping tables (xboxone_s_map / xboxone_x_map) ===== -/

def MAP_IGNORE : Nat := 0
def MAP_AUTO : Nat := 1
def MAP_STATIC : Nat := 2

structure map_entry where
  map_type : Nat
  map_to_event_type : Nat
  map_to_input_code : Nat
deriving DecidableEq

/-- A slot of the static designated-initializer arrays that no initializer
names: all fields zero, so its map_type is MAP_IGNORE. -/
def zero_entry : map_entry := ⟨0, 0, 0⟩

/-- One usage page of a device map: the maximum index and the entry
array.  input_ev is a C pointer; a page whose initializer was omitted is
statically zeroed, so its pointer is NULL, modelled as none. -/
structure map_usagepage where
  max : Nat
  input_ev : Option (Nat → map_entry)

/-- Usage pages consulted by xpadneo_mapping; the source struct also has a
generic_device_control page, but no switch arm ever selects it. -/
structure device_input_mapping where
  generic_desktop : map_usagepage
  button : map_usagepage
  simulation : map_usagepage
  consumer : map_usagepage

/-- A usage page the device map leaves uninitialized: static zeroing gives
max 0 and a NULL input_ev pointer; indexing this page reads through NULL
and has no defined result. -/
def empty_usagepage : map_usagepage := ⟨0, none⟩

def xboxone_s_button_ev : Nat → map_entry
  | 0x01 => ⟨MAP_STATIC, EV_KEY, BTN_SOUTH⟩
  | 0x02 => ⟨MAP_STATIC, EV_KEY, BTN_EAST⟩
  | 0x04 => ⟨MAP_STATIC, EV_KEY, BTN_NORTH⟩
  | 0x05 => ⟨MAP_STATIC, EV_KEY, BTN_WEST⟩
  | 0x07 => ⟨MAP_STATIC, EV_KEY, BTN_TL⟩
  | 0x08 => ⟨MAP_STATIC, EV_KEY, BTN_TR⟩
  | 0x0C => ⟨MAP_STATIC, EV_KEY, BTN_START⟩
  | 0x0E => ⟨MAP_STATIC, EV_KEY, BTN_THUMBL⟩
  | 0x0F => ⟨MAP_STATIC, EV_KEY, BTN_THUMBR⟩
  | _ => zero_entry

def xboxone_s_consumer_ev : Nat → map_entry
  | 0x223 => ⟨MAP_STATIC, EV_KEY, BTN_MODE⟩
  | 0x224 => ⟨MAP_STATIC, EV_KEY, BTN_SELECT⟩
  | _ => zero_entry

def xboxone_s_gendesk_ev : Nat → map_entry
  | 0x30 => ⟨MAP_STATIC, EV_ABS, ABS_X⟩
  | 0x31 => ⟨MAP_STATIC, EV_ABS, ABS_Y⟩
  | 0x32 => ⟨MAP_STATIC, EV_ABS, ABS_RX⟩
  | 0x35 => ⟨MAP_STATIC, EV_ABS, ABS_RY⟩
  | 0x39 => ⟨MAP_AUTO, 0, 0⟩
  | _ => zero_entry

def xboxone_s_simulation_ev : Nat → map_entry
  | 0xC4 => ⟨MAP_STATIC, EV_ABS, ABS_RZ⟩
  | 0xC5 => ⟨MAP_STATIC, EV_ABS, ABS_Z⟩
  | _ => zero_entry

def xboxone_s_map : device_input_mapping :=
  { button := ⟨0x0f, some xboxone_s_button_ev⟩
    consumer := ⟨0x224, some xboxone_s_consumer_ev⟩
    generic_desktop := ⟨0x39, some xboxone_s_gendesk_ev⟩
    simulation := ⟨0xC5, some xboxone_s_simulation_ev⟩ }

def xboxone_x_button_ev : Nat → map_entry
  | 0x01 => ⟨MAP_STATIC, EV_KEY, BTN_SOUTH⟩
  | 0x02 => ⟨MAP_STATIC, EV_KEY, BTN_EAST⟩
  | 0x03 => ⟨MAP_STATIC, EV_KEY, BTN_WEST⟩
  | 0x04 => ⟨MAP_STATIC, EV_KEY, BTN_NORTH⟩
  | 0x05 => ⟨MAP_STATIC, EV_KEY, BTN_TL⟩
  | 0x06 => ⟨MAP_STATIC, EV_KEY, BTN_TR⟩
  | 0x07 => ⟨MAP_STATIC, EV_KEY, BTN_SELECT⟩
  | 0x08 => ⟨MAP_STATIC, EV_KEY, BTN_START⟩
  | 0x09 => ⟨MAP_STATIC, EV_KEY, BTN_THUMBL⟩
  | 0x0A => ⟨MAP_STATIC, EV_KEY, BTN_THUMBR⟩
  | _ => zero_entry

def xboxone_x_gendesk_ev : Nat → map_entry
  | 0x30 => ⟨MAP_STATIC, EV_ABS, ABS_X⟩
  | 0x31 => ⟨MAP_STATIC, EV_ABS, ABS_Y⟩
  | 0x32 => ⟨MAP_STATIC, EV_ABS, ABS_Z⟩
  | 0x33 => ⟨MAP_STATIC, EV_ABS, ABS_RX⟩
  | 0x34 => ⟨MAP_STATIC, EV_ABS, ABS_RY⟩
  | 0x35 => ⟨MAP_STATIC, EV_ABS, ABS_RZ⟩
  | 0x39 => ⟨MAP_AUTO, 0, 0⟩
  | 0x85 => ⟨MAP_STATIC, EV_KEY, BTN_MODE⟩
  | _ => zero_entry

def xboxone_x_map : device_input_mapping :=
  { button := ⟨0x0a, some xboxone_x_button_ev⟩
    generic_desktop := ⟨0x85, some xboxone_x_gendesk_ev⟩
    simulation := empty_usagepage
    consumer := empty_usagepage }

/- ===== Input mapping hook (xpadneo_mapping) ===== -/

def RET_MAP_IGNORE : Int := -1
def RET_MAP_AUTO : Int := 0
def RET_MAP_STATIC : Int := 1

/-- Device-map selection switch of xpadneo_mapping, keyed by product id. -/
def xpadneo_select_map (product : Nat) : Option device_input_mapping :=
  match product with
  | 0x02E0 => some xboxone_x_map
  | 0x02FD => some xboxone_s_map
  | _ => none

/-- Usage-page selection switch of xpadneo_mapping. -/
def xpadneo_select_page (dm : device_input_mapping) (upid : Nat) : Option map_usagepage :=
  if upid = HID_UP_BUTTON then some dm.button
  else if upid = HID_UP_GENDESK then some dm.generic_desktop
  else if upid = HID_UP_SIMULATION then some dm.simulation
  else if upid = HID_UP_CONSUMER then some dm.consumer
  else none

/-- Table lookup of xpadneo_mapping: an id above the table maximum is
suppressed before the array is touched; otherwise the slot is read
(m = mup.input_ev[uid]), and an entry whose map_type is MAP_IGNORE
suppresses the usage, MAP_AUTO defers to hid-core, everything else is a
forced static mapping.  Reading a slot of a page whose input_ev pointer
is NULL dereferences NULL: that execution has no defined result, which
the none outcome records. -/
def xpadneo_lookup (mup : map_usagepage) (uid : Nat) : Option Int :=
  if uid > mup.max then some RET_MAP_IGNORE
  else
    match mup.input_ev with
    | none => none
    | some ev =>
      if (ev uid).map_type = MAP_IGNORE then some RET_MAP_IGNORE
      else if (ev uid).map_type = MAP_AUTO then some RET_MAP_AUTO
      else some RET_MAP_STATIC

/-- xpadneo_mapping: classify one HID usage for input registration.
usage_hid combines the usage page (high half) and the usage id (low
half) like the hid field of struct hid_usage; a none result is the
undefined NULL-dereference execution of xpadneo_lookup. -/
def xpadneo_mapping (product usage_hid : Nat) : Option Int :=
  match xpadneo_select_map product with
  | none => some RET_MAP_AUTO
  | some dm =>
    match xpadneo_select_page dm (usage_hid &&& HID_USAGE_PAGE) with
    | none => some RET_MAP_IGNORE
    | some mup => xpadneo_lookup mup (usage_hid &&& HID_USAGE)

/-- The usage ids named by the designated initializers of each usage page
of a device map; a pair outside this enumeration has no table entry. -/
def xpadneo_has_entry (dm_is_x : Bool) (upid uid : Nat) : Bool :=
  if dm_is_x then
    if upid = HID_UP_BUTTON then
      [0x01, 0x02, 0x03, 0x04, 0x05, 0x06, 0x07, 0x08, 0x09, 0x0A].contains uid
    else if upid = HID_UP_GENDESK then
      [0x30, 0x31, 0x32, 0x33, 0x34, 0x35, 0x39, 0x85].contains uid
    else false
  else
    if upid = HID_UP_BUTTON then
      [0x01, 0x02, 0x04, 0x05, 0x07, 0x08, 0x0C, 0x0E, 0x0F].contains uid
    else if upid = HID_UP_GENDESK then
      [0x30, 0x31, 0x32, 0x35, 0x39].contains uid
    else if upid = HID_UP_SIMULATION then
      [0xC4, 0xC5].contains uid
    else if upid = HID_UP_CONSUMER then
      [0x223, 0x224].contains uid
    else false

/- ===== Input configured hook (xpadneo_input_configured) ===== -/

/-- One bit of a capability bitmap per code (the keybit and absbit arrays
of struct input_dev). -/
structure input_bitmaps where
  keybit : Nat → Bool
  absbit : Nat → Bool

def set_bit (n : Nat) (bm : Nat → Bool) : Nat → Bool :=
  fun c => if c = n then true else bm c

def clear_bit (n : Nat) (bm : Nat → Bool) : Nat → Bool :=
  fun c => if c = n then false else bm c

/-- xpadneo_input_configured: when dpad_as_buttons is set, add the four
synthetic D-pad keys to the key bitmap and remove the hat axes from the
absolute-axis bitmap; otherwise leave the device untouched. -/
def xpadneo_input_configured (dpad_as_buttons : Bool) (input : input_bitmaps) :
    input_bitmaps :=
  if dpad_as_buttons then
    { keybit := set_bit BTN_DPAD_LEFT (set_bit BTN_DPAD_DOWN
        (set_bit BTN_DPAD_RIGHT (set_bit BTN_DPAD_UP input.keybit)))
      absbit := clear_bit ABS_HAT0Y (clear_bit ABS_HAT0X input.absbit) }
  else input

/- ===== Spec-modelled second driver revision =====

The dialect classifier, the battery decoder and the mismatch-correction
path of the per-usage interpreter exist only in the second driver
revision of the repository, which is not in the source tree; the
definitions below follow the specification text (sections 3, 4.1, 4.3
and 4.4). -/

/-- Modelled from the spec: the report dialect of the device (section 3);
the second driver revision holding this type is missing from the tree. -/
inductive Dialect where
  | unknown
  | linuxStyle
  | windowsStyle
deriving DecidableEq

/-- Modelled from the spec: ordered battery capacity levels (section 3). -/
inductive CapacityLevel where
  | unknown
  | critical
  | low
  | normal
  | high
  | full
deriving DecidableEq

/-- Modelled from the spec: the per-device state record of the second
driver revision (section 3): the two dialect fields, the cable state and
the latest capacity level. -/
structure DeviceState where
  advertised : Dialect
  observed : Dialect
  cable : Bool
  capacity : CapacityLevel
deriving DecidableEq

/-- Modelled from the spec: dialect inferred from the byte length of the
report descriptor at probe time (section 4.1): 307 is WindowsStyle, 335
is LinuxStyle, anything else stays Unknown. -/
def classify_rdesc_size (n : Nat) : Dialect :=
  if n = 307 then Dialect.windowsStyle
  else if n = 335 then Dialect.linuxStyle
  else Dialect.unknown

/-- Modelled from the spec: dialect inferred from the payload length of a
report with report-ID 1 (section 4.1): 16 is WindowsStyle, 17 is
LinuxStyle, anything else stays Unknown. -/
def classify_report_size (n : Nat) : Dialect :=
  if n = 16 then Dialect.windowsStyle
  else if n = 17 then Dialect.linuxStyle
  else Dialect.unknown

/-- Modelled from the spec: probe-time classification of the advertised
dialect; idempotent, a field already holding a concrete value is kept
(sections 4.1 and 8). -/
def on_probe (st : DeviceState) (rdesc_size : Nat) : DeviceState :=
  if st.advertised = Dialect.unknown then
    { st with advertised := classify_rdesc_size rdesc_size }
  else st

/-- Modelled from the spec: the battery byte lookup of the raw event
interpreter (section 4.3). -/
def decode_battery (st : DeviceState) (b : Nat) : DeviceState :=
  if b = 0x80 then { st with cable := true, capacity := CapacityLevel.unknown }
  else if b = 0x84 then { st with cable := false, capacity := CapacityLevel.critical }
  else if b = 0x85 then { st with cable := false, capacity := CapacityLevel.low }
  else if b = 0x86 then { st with cable := false, capacity := CapacityLevel.normal }
  else if b = 0x87 then { st with cable := false, capacity := CapacityLevel.high }
  else { st with cable := false }

/-- Whether a hook lets the report or usage continue into generic hid-core
parsing or suppresses it. -/
inductive HookAction where
  | Continue
  | Suppress
deriving DecidableEq

/-- Result of the raw event interpreter: the updated device state, whether
the battery collaborator was notified of changed values, and whether the
report continues into generic parsing. -/
structure raw_result where
  state : DeviceState
  notified : Bool
  action : HookAction
deriving DecidableEq

/-- Modelled from the spec: on_raw_report of the second driver revision
(section 4.3).  Report-ID 1 runs dialect observation when the observed
dialect is still unknown and always continues; report-ID 4 decodes byte 1
of the payload through the battery lookup, notifies the battery
collaborator and suppresses the report; every other report continues
untouched. -/
def on_raw_report (st : DeviceState) (report_id : Nat) (payload : List Nat) :
    raw_result :=
  if report_id = 1 then
    { state :=
        if st.observed = Dialect.unknown then
          { st with observed := classify_report_size payload.length }
        else st
      notified := false
      action := HookAction.Continue }
  else if report_id = 4 then
    { state := decode_battery st (payload.getD 1 0)
      notified := true
      action := HookAction.Suppress }
  else { state := st, notified := false, action := HookAction.Continue }

/-- Modelled from the spec: the fixed remap table of the
mismatch-correction path (section 4.4), usage ids 0x01 to 0x0A in
numeric order. -/
def mismatch_button (uid : Nat) : Option XpadBtn :=
  match uid with
  | 0x01 => some XpadBtn.A
  | 0x02 => some XpadBtn.B
  | 0x03 => some XpadBtn.X
  | 0x04 => some XpadBtn.Y
  | 0x05 => some XpadBtn.L1
  | 0x06 => some XpadBtn.R1
  | 0x07 => some XpadBtn.Select
  | 0x08 => some XpadBtn.Start
  | 0x09 => some XpadBtn.LStick
  | 0x0A => some XpadBtn.RStick
  | _ => none

/-- The D-pad synthesis branch shared by both shapes of the per-usage
interpreter: on usage id 0x39 emit the four synthetic direction keys and
continue, otherwise fall through. -/
def dpad_synthesis (usage_id : Nat) (value : Int) : List input_event × HookAction :=
  if usage_id = 0x39 then
    ([input_event.key BTN_DPAD_UP (dpad_up value),
      input_event.key BTN_DPAD_RIGHT (dpad_right value),
      input_event.key BTN_DPAD_DOWN (dpad_down value),
      input_event.key BTN_DPAD_LEFT (dpad_left value)],
     HookAction.Continue)
  else ([], HookAction.Continue)

/-- Modelled from the spec: on_usage_value of the second driver revision
(section 4.4).  When the observed dialect is WindowsStyle, the advertised
dialect is LinuxStyle and the usage page is Button, usage ids 0x01 to
0x0A are remapped through the fixed button table, the button event is
emitted and the usage is suppressed; in every other situation the
interpreter only performs the D-pad synthesis and lets generic parsing
continue. -/
def on_usage_value (observed advertised : Dialect) (usage_page usage_id : Nat)
    (value : Int) : List input_event × HookAction :=
  if observed = Dialect.windowsStyle ∧ advertised = Dialect.linuxStyle
      ∧ usage_page = HID_UP_BUTTON then
    match mismatch_button usage_id with
    | some b => ([input_event.btn b value], HookAction.Suppress)
    | none => dpad_synthesis usage_id value
  else dpad_synthesis usage_id value

/-- One input consumed by the classifier over the lifetime of one
connection: a probe with the report-descriptor byte length, or an
incoming report. -/
inductive class_input where
  | probe (rdesc_size : Nat)
  | report (report_id : Nat) (payload : List Nat)

/-- The effect of one classification input on the device state. -/
def classifier_step (st : DeviceState) (i : class_input) : DeviceState :=
  match i with
  | class_input.probe n => on_probe st n
  | class_input.report id payload => (on_raw_report st id payload).state

/- ===================== Theorems ===================== -/

/-- Claim C3: the D-pad hat decode is total over every value in 0..8 and,
per the range rule of the source, asserts exactly one of no direction,
one direction, or two adjacent directions; value 0 asserts no direction
and value 8 asserts exactly up and left. -/
theorem xpadneo_C3_dpad_decode (v : Int) (h0 : 0 ≤ v) (h8 : v ≤ 8) :
    (dpad_count v = 0 ∨ dpad_count v = 1 ∨
      (dpad_count v = 2 ∧ dpad_adjacent_pair v)) ∧
    (v = 0 → dpad_up v = false ∧ dpad_right v = false ∧
      dpad_down v = false ∧ dpad_left v = false) ∧
    (v = 8 → dpad_up v = true ∧ dpad_left v = true ∧
      dpad_right v = false ∧ dpad_down v = false) := by
  interval_cases v <;> decide

/-- Witness for C3 at the hat value 8. -/
theorem xpadneo_C3_witness :
    dpad_up 8 = true ∧ dpad_left 8 = true ∧
    dpad_right 8 = false ∧ dpad_down 8 = false :=
  (xpadneo_C3_dpad_decode 8 (by decide) (by decide)).2.2 rfl

/-- For a 16-bit magnitude, masking with 0xFF00 and shifting right by 8
extracts the high byte. -/
theorem ff_high_byte (w : Nat) (h : w < 65536) : (w &&& 0xFF00) >>> 8 = w / 256 := by
  have h2 : w / 256 = w >>> 8 := by
    rw [Nat.shiftRight_eq_div_pow]
  rw [h2]
  apply Nat.eq_of_testBit_eq
  intro i
  simp only [Nat.testBit_shiftRight, Nat.testBit_and]
  by_cases hi : i < 8
  · have ht : Nat.testBit 0xFF00 (8 + i) = true := by
      interval_cases i <;> decide
    simp [ht]
  · have hw : Nat.testBit w (8 + i) = false := by
      apply Nat.testBit_lt_two_pow
      calc w < 65536 := h
        _ = 2 ^ 16 := by norm_num
        _ ≤ 2 ^ (8 + i) := by
          apply Nat.pow_le_pow_right (by norm_num)
          omega
    simp [hw]

/-- Claim C4: for every pair of 16-bit magnitudes, the rumble encoder
produces report id 3, left magnitude equal to the high byte of the strong
magnitude, right magnitude equal to the high byte of the weak magnitude,
duration 0xFF, loop count 0xFF and both actuator-enable bits set,
independent of the low bytes of the inputs. -/
theorem xpadneo_C4_rumble_encoding (weak strong : Nat)
    (hw : weak < 65536) (hs : strong < 65536) :
    (xpadneo_ff_play_package weak strong).report_id = 0x03 ∧
    (xpadneo_ff_play_package weak strong).ff.magnitude_left = strong / 256 ∧
    (xpadneo_ff_play_package weak strong).ff.magnitude_right = weak / 256 ∧
    (xpadneo_ff_play_package weak strong).ff.duration = 0xFF ∧
    (xpadneo_ff_play_package weak strong).ff.loop_count = 0xFF ∧
    (xpadneo_ff_play_package weak strong).ff.enable_actuators &&& FF_ENABLE_RMBL_LEFT ≠ 0 ∧
    (xpadneo_ff_play_package weak strong).ff.enable_actuators &&& FF_ENABLE_RMBL_RIGHT ≠ 0 ∧
    (∀ w2 s2 : Nat, w2 < 65536 → s2 < 65536 →
      w2 / 256 = weak / 256 → s2 / 256 = strong / 256 →
      xpadneo_ff_play_package w2 s2 = xpadneo_ff_play_package weak strong) := by
  refine ⟨rfl, ff_high_byte strong hs, ff_high_byte weak hw, rfl, rfl, ?_, ?_, ?_⟩
  · show (FF_ENABLE_RMBL_RIGHT ||| FF_ENABLE_RMBL_LEFT) &&& FF_ENABLE_RMBL_LEFT ≠ 0
    decide
  · show (FF_ENABLE_RMBL_RIGHT ||| FF_ENABLE_RMBL_LEFT) &&& FF_ENABLE_RMBL_RIGHT ≠ 0
    decide
  intro w2 s2 hw2 hs2 ew es
  have m1 : (w2 &&& 0xFF00) >>> 8 = (weak &&& 0xFF00) >>> 8 := by
    rw [ff_high_byte w2 hw2, ff_high_byte weak hw, ew]
  have m2 : (s2 &&& 0xFF00) >>> 8 = (strong &&& 0xFF00) >>> 8 := by
    rw [ff_high_byte s2 hs2, ff_high_byte strong hs, es]
  simp [xpadneo_ff_play_package, m1, m2]

/-- Witness for C4 at weak 0x1234 and strong 0xABCD. -/
theorem xpadneo_C4_witness :
    (xpadneo_ff_play_package 0x1234 0xABCD).ff.magnitude_left = 0xAB ∧
    (xpadneo_ff_play_package 0x1234 0xABCD).ff.magnitude_right = 0x12 ∧
    (xpadneo_ff_play_package 0x1234 0xABCD).ff.duration = 0xFF := by
  have h := xpadneo_C4_rumble_encoding 0x1234 0xABCD (by decide) (by decide)
  exact ⟨h.2.1, h.2.2.1, h.2.2.2.1⟩

/-- Claim C7: for every hat-switch usage, the event hook emits all four
synthetic D-pad key events and returns the continue code, independent of
the dpad_as_buttons flag. -/
theorem xpadneo_C7_dpad_events_unconditional (dpad_flag : Bool)
    (usage_hid : Nat) (value : Int) (h : usage_hid &&& HID_USAGE = 0x39) :
    xpadneo_event dpad_flag usage_hid value =
      ([input_event.key BTN_DPAD_UP (dpad_up value),
        input_event.key BTN_DPAD_RIGHT (dpad_right value),
        input_event.key BTN_DPAD_DOWN (dpad_down value),
        input_event.key BTN_DPAD_LEFT (dpad_left value)],
       EV_CONT_PROCESSING) ∧
    (∀ flag2 : Bool, xpadneo_event dpad_flag usage_hid value =
      xpadneo_event flag2 usage_hid value) := by
  constructor
  · unfold xpadneo_event
    rw [if_pos h]
  · intro flag2
    rfl

/-- Witness for C7 at the generic-desktop hat usage with value 2 and the
flag disabled. -/
theorem xpadneo_C7_witness :
    xpadneo_event false 0x00010039 2 =
      ([input_event.key BTN_DPAD_UP true,
        input_event.key BTN_DPAD_RIGHT true,
        input_event.key BTN_DPAD_DOWN false,
        input_event.key BTN_DPAD_LEFT false],
       EV_CONT_PROCESSING) := by
  have h := (xpadneo_C7_dpad_events_unconditional false 0x00010039 2 (by decide)).1
  simpa using h

/-- Claim C8: the initialization handshake consists of exactly two
single-actuator pulses, right actuator first and left actuator second,
both with magnitude 0x99 and duration tick 50, separated by a 500 ms
delay. -/
theorem xpadneo_C8_handshake_pulses :
    xpadneo_initDevice_actions.length = 3 ∧
    (xpadneo_initDevice_actions.filter
      (fun a => match a with
        | init_action.send _ => true
        | init_action.delay_ms _ => false)).length = 2 ∧
    xpadneo_initDevice_actions.getD 0 (init_action.delay_ms 0) =
      init_action.send xpadneo_hello_right ∧
    xpadneo_initDevice_actions.getD 1 (init_action.delay_ms 0) =
      init_action.delay_ms 500 ∧
    xpadneo_initDevice_actions.getD 2 (init_action.delay_ms 0) =
      init_action.send xpadneo_hello_left ∧
    xpadneo_hello_right.ff.enable_actuators = FF_ENABLE_RMBL_RIGHT ∧
    xpadneo_hello_right.ff.enable_actuators &&& FF_ENABLE_RMBL_LEFT = 0 ∧
    xpadneo_hello_left.ff.enable_actuators = FF_ENABLE_RMBL_LEFT ∧
    xpadneo_hello_left.ff.enable_actuators &&& FF_ENABLE_RMBL_RIGHT = 0 ∧
    xpadneo_hello_right.ff.magnitude_right = 0x99 ∧
    xpadneo_hello_left.ff.magnitude_left = 0x99 ∧
    xpadneo_hello_right.ff.magnitude_right = xpadneo_hello_left.ff.magnitude_left ∧
    xpadneo_hello_right.ff.duration = 50 ∧
    xpadneo_hello_left.ff.duration = 50 := by
  decide

/-- Claim C9: the force-feedback play callback returns 0 to the input
subsystem for every effect request, writes the output report exactly once
and never retries, whatever integer the transport write returned. -/
theorem xpadneo_C9_play_return (weak strong : Nat) (write_result : Int) :
    (xpadneo_ff_play weak strong write_result).2 = 0 ∧
    (xpadneo_ff_play weak strong write_result).1.length = 1 ∧
    (∀ other : Int, xpadneo_ff_play weak strong other =
      xpadneo_ff_play weak strong write_result) :=
  ⟨rfl, rfl, fun _ => rfl⟩

/-- Claim C10: with dpad_as_buttons enabled, the input-configured hook
sets the four synthetic D-pad keys in the key bitmap, clears both hat
axes from the absolute-axis bitmap and touches nothing else; with the
flag disabled it leaves the bitmaps unchanged. -/
theorem xpadneo_C10_input_configured_bitmaps (b : input_bitmaps) :
    ((xpadneo_input_configured true b).keybit BTN_DPAD_UP = true ∧
     (xpadneo_input_configured true b).keybit BTN_DPAD_RIGHT = true ∧
     (xpadneo_input_configured true b).keybit BTN_DPAD_DOWN = true ∧
     (xpadneo_input_configured true b).keybit BTN_DPAD_LEFT = true) ∧
    ((xpadneo_input_configured true b).absbit ABS_HAT0X = false ∧
     (xpadneo_input_configured true b).absbit ABS_HAT0Y = false) ∧
    (∀ c : Nat, c ≠ BTN_DPAD_UP → c ≠ BTN_DPAD_RIGHT →
      c ≠ BTN_DPAD_DOWN → c ≠ BTN_DPAD_LEFT →
      (xpadneo_input_configured true b).keybit c = b.keybit c) ∧
    (∀ c : Nat, c ≠ ABS_HAT0X → c ≠ ABS_HAT0Y →
      (xpadneo_input_configured true b).absbit c = b.absbit c) ∧
    xpadneo_input_configured false b = b := by
  refine ⟨⟨?_, ?_, ?_, ?_⟩, ⟨?_, ?_⟩, ?_, ?_, rfl⟩
  · simp [xpadneo_input_configured, set_bit, BTN_DPAD_UP, BTN_DPAD_RIGHT,
      BTN_DPAD_DOWN, BTN_DPAD_LEFT]
  · simp [xpadneo_input_configured, set_bit, BTN_DPAD_UP, BTN_DPAD_RIGHT,
      BTN_DPAD_DOWN, BTN_DPAD_LEFT]
  · simp [xpadneo_input_configured, set_bit, BTN_DPAD_UP, BTN_DPAD_RIGHT,
      BTN_DPAD_DOWN, BTN_DPAD_LEFT]
  · simp [xpadneo_input_configured, set_bit, BTN_DPAD_UP, BTN_DPAD_RIGHT,
      BTN_DPAD_DOWN, BTN_DPAD_LEFT]
  · simp [xpadneo_input_configured, clear_bit, ABS_HAT0X, ABS_HAT0Y]
  · simp [xpadneo_input_configured, clear_bit, ABS_HAT0X, ABS_HAT0Y]
  · intro c h1 h2 h3 h4
    simp [xpadneo_input_configured, set_bit, h1, h2, h3, h4]
  · intro c h1 h2
    simp [xpadneo_input_configured, clear_bit, h1, h2]

/-- Witness for C10 on a bitmap with no keys and all axes. -/
theorem xpadneo_C10_witness :
    (xpadneo_input_configured true ⟨fun _ => false, fun _ => true⟩).keybit
      BTN_DPAD_UP = true ∧
    (xpadneo_input_configured true ⟨fun _ => false, fun _ => true⟩).absbit
      ABS_HAT0X = false ∧
    (xpadneo_input_configured true ⟨fun _ => false, fun _ => true⟩).keybit
      0x100 = false ∧
    (xpadneo_input_configured true ⟨fun _ => false, fun _ => true⟩).absbit
      0x00 = true ∧
    xpadneo_input_configured false ⟨fun _ => false, fun _ => true⟩ =
      ⟨fun _ => false, fun _ => true⟩ := by
  have h := xpadneo_C10_input_configured_bitmaps ⟨fun _ => false, fun _ => true⟩
  exact ⟨h.1.1, h.2.1.1,
    h.2.2.1 0x100 (by decide) (by decide) (by decide) (by decide),
    h.2.2.2.1 0 (by decide) (by decide), h.2.2.2.2⟩

/-- In-range slots of the S-map button table outside the initializer list
hold the zeroed entry. -/
theorem s_button_unlisted : ∀ uid, uid < 0x10 →
    ([0x01, 0x02, 0x04, 0x05, 0x07, 0x08, 0x0C, 0x0E, 0x0F].contains uid) = false →
    (xboxone_s_button_ev uid).map_type = MAP_IGNORE := by decide

theorem s_gendesk_unlisted : ∀ uid, uid < 0x3A →
    ([0x30, 0x31, 0x32, 0x35, 0x39].contains uid) = false →
    (xboxone_s_gendesk_ev uid).map_type = MAP_IGNORE := by decide

theorem s_simulation_unlisted : ∀ uid, uid < 0xC6 →
    ([0xC4, 0xC5].contains uid) = false →
    (xboxone_s_simulation_ev uid).map_type = MAP_IGNORE := by decide

theorem s_consumer_unlisted : ∀ uid, uid < 0x225 →
    ([0x223, 0x224].contains uid) = false →
    (xboxone_s_consumer_ev uid).map_type = MAP_IGNORE := by decide

theorem x_button_unlisted : ∀ uid, uid < 0x0B →
    ([0x01, 0x02, 0x03, 0x04, 0x05, 0x06, 0x07, 0x08, 0x09, 0x0A].contains uid) = false →
    (xboxone_x_button_ev uid).map_type = MAP_IGNORE := by decide

theorem x_gendesk_unlisted : ∀ uid, uid < 0x86 →
    ([0x30, 0x31, 0x32, 0x33, 0x34, 0x35, 0x39, 0x85].contains uid) = false →
    (xboxone_x_gendesk_ev uid).map_type = MAP_IGNORE := by decide

/-- A table lookup through a usage page with a present entry array whose
slot for this id holds the zeroed entry, or whose maximum the id
exceeds, is ignored. -/
theorem xpadneo_lookup_ignore (mup : map_usagepage) (ev : Nat → map_entry)
    (uid : Nat) (hev : mup.input_ev = some ev)
    (h : uid > mup.max ∨ (ev uid).map_type = MAP_IGNORE) :
    xpadneo_lookup mup uid = some RET_MAP_IGNORE := by
  unfold xpadneo_lookup
  rcases h with h | h
  · rw [if_pos h]
  · by_cases hgt : uid > mup.max
    · rw [if_pos hgt]
    · rw [if_neg hgt, hev]
      simp only [if_pos h]

/-- A lookup through an uninitialized page is ignored for every positive
id (the id exceeds the zeroed maximum before the NULL array is read). -/
theorem xpadneo_lookup_empty_pos (uid : Nat) (h : uid ≠ 0) :
    xpadneo_lookup empty_usagepage uid = some RET_MAP_IGNORE := by
  unfold xpadneo_lookup
  have hmax : empty_usagepage.max = 0 := rfl
  rw [if_pos (by omega : uid > empty_usagepage.max)]

/-- Off the NULL-dereference corner, every usage whose page and id have no
entry in the table of the device selected by the product id is ignored by
xpadneo_mapping, exactly as an explicit MAP_IGNORE entry would be. -/
theorem xpadneo_mapping_unlisted_ignored (product usage_hid : Nat)
    (hp : product = 0x02E0 ∨ product = 0x02FD)
    (h : xpadneo_has_entry (product == 0x02E0)
      (usage_hid &&& HID_USAGE_PAGE) (usage_hid &&& HID_USAGE) = false)
    (hnull : ¬(product = 0x02E0 ∧ usage_hid &&& HID_USAGE = 0 ∧
      (usage_hid &&& HID_USAGE_PAGE = HID_UP_SIMULATION ∨
       usage_hid &&& HID_USAGE_PAGE = HID_UP_CONSUMER))) :
    xpadneo_mapping product usage_hid = some RET_MAP_IGNORE := by
  have huid : usage_hid &&& HID_USAGE < 65536 := by
    have : usage_hid &&& HID_USAGE < 2 ^ 16 :=
      Nat.and_lt_two_pow usage_hid (by norm_num [HID_USAGE])
    omega
  rcases hp with hp | hp <;> subst hp <;>
    simp only [xpadneo_mapping, xpadneo_select_map, xpadneo_select_page] <;>
    by_cases hb : usage_hid &&& HID_USAGE_PAGE = HID_UP_BUTTON
  · simp only [hb, if_true, if_pos rfl]
    simp only [xpadneo_has_entry, hb, beq_self_eq_true, if_true, if_pos rfl] at h
    apply xpadneo_lookup_ignore _ xboxone_x_button_ev _ rfl
    by_cases hgt : usage_hid &&& HID_USAGE > 0x0a
    · left
      exact hgt
    · right
      exact x_button_unlisted (usage_hid &&& HID_USAGE) (by omega) h
  · by_cases hg : usage_hid &&& HID_USAGE_PAGE = HID_UP_GENDESK
    · simp only [hb, if_false, hg, if_true, if_pos rfl]
      simp only [xpadneo_has_entry, hb, hg, beq_self_eq_true, if_true,
        if_false, if_pos rfl, if_neg hb] at h
      apply xpadneo_lookup_ignore _ xboxone_x_gendesk_ev _ rfl
      by_cases hgt : usage_hid &&& HID_USAGE > 0x85
      · left
        exact hgt
      · right
        exact x_gendesk_unlisted (usage_hid &&& HID_USAGE) (by omega) h
    · by_cases hs : usage_hid &&& HID_USAGE_PAGE = HID_UP_SIMULATION
      · simp only [hb, hg, hs, if_false, if_true, if_pos rfl]
        have h0 : usage_hid &&& HID_USAGE ≠ 0 := fun h0 => hnull ⟨rfl, h0, Or.inl hs⟩
        exact xpadneo_lookup_empty_pos _ h0
      · by_cases hc : usage_hid &&& HID_USAGE_PAGE = HID_UP_CONSUMER
        · simp only [hb, hg, hs, hc, if_false, if_true, if_pos rfl]
          have h0 : usage_hid &&& HID_USAGE ≠ 0 := fun h0 => hnull ⟨rfl, h0, Or.inr hc⟩
          exact xpadneo_lookup_empty_pos _ h0
        · simp only [hb, hg, hs, hc, if_false]
  · simp only [hb, if_true, if_pos rfl]
    simp only [xpadneo_has_entry, hb, if_true, if_pos rfl,
      show ((0x02FD : Nat) == 0x02E0) = false by decide, if_false] at h
    apply xpadneo_lookup_ignore _ xboxone_s_button_ev _ rfl
    by_cases hgt : usage_hid &&& HID_USAGE > 0x0f
    · left
      exact hgt
    · right
      exact s_button_unlisted (usage_hid &&& HID_USAGE) (by omega) h
  · by_cases hg : usage_hid &&& HID_USAGE_PAGE = HID_UP_GENDESK
    · simp only [hb, if_false, hg, if_true, if_pos rfl]
      simp only [xpadneo_has_entry, hb, hg, if_true, if_false, if_pos rfl, if_neg hb,
        show ((0x02FD : Nat) == 0x02E0) = false by decide] at h
      apply xpadneo_lookup_ignore _ xboxone_s_gendesk_ev _ rfl
      by_cases hgt : usage_hid &&& HID_USAGE > 0x39
      · left
        exact hgt
      · right
        exact s_gendesk_unlisted (usage_hid &&& HID_USAGE) (by omega) h
    · by_cases hsim : usage_hid &&& HID_USAGE_PAGE = HID_UP_SIMULATION
      · simp only [hb, hg, hsim, if_false, if_true, if_pos rfl]
        simp only [xpadneo_has_entry, hb, hg, hsim, if_true, if_false, if_pos rfl,
          if_neg hb, if_neg hg,
          show ((0x02FD : Nat) == 0x02E0) = false by decide] at h
        apply xpadneo_lookup_ignore _ xboxone_s_simulation_ev _ rfl
        by_cases hgt : usage_hid &&& HID_USAGE > 0xC5
        · left
          exact hgt
        · right
          exact s_simulation_unlisted (usage_hid &&& HID_USAGE) (by omega) h
      · by_cases hc : usage_hid &&& HID_USAGE_PAGE = HID_UP_CONSUMER
        · simp only [hb, hg, hsim, hc, if_false, if_true, if_pos rfl]
          simp only [xpadneo_has_entry, hb, hg, hsim, hc, if_true, if_false,
            if_pos rfl, if_neg hb, if_neg hg, if_neg hsim,
            show ((0x02FD : Nat) == 0x02E0) = false by decide] at h
          apply xpadneo_lookup_ignore _ xboxone_s_consumer_ev _ rfl
          by_cases hgt : usage_hid &&& HID_USAGE > 0x224
          · left
            exact hgt
          · right
            exact s_consumer_unlisted (usage_hid &&& HID_USAGE) (by omega) h
        · simp only [hb, hg, hsim, hc, if_false]

/-- Claim C5: absence of a table entry is meant to be equivalent to an
explicit MAP_IGNORE entry, and it is for every listed table; but on the
Xbox One X map the simulation and consumer pages were never initialized,
so their entry arrays are NULL, and for the unlisted usages with id 0 on
those pages the lookup passes the zeroed-maximum guard and dereferences
the NULL array instead of returning the ignore code — directly under the
source comment asserting the access is safe.  The same usages on the S
map, whose tables are all present, are cleanly ignored. -/
theorem xpadneo_C5_null_table_crash :
    xpadneo_has_entry true (0x00020000 &&& HID_USAGE_PAGE)
      (0x00020000 &&& HID_USAGE) = false ∧
    xpadneo_mapping 0x02E0 0x00020000 = none ∧
    xpadneo_has_entry true (0x000C0000 &&& HID_USAGE_PAGE)
      (0x000C0000 &&& HID_USAGE) = false ∧
    xpadneo_mapping 0x02E0 0x000C0000 = none ∧
    xpadneo_mapping 0x02FD 0x00020000 = some RET_MAP_IGNORE ∧
    xpadneo_mapping 0x02FD 0x000C0000 = some RET_MAP_IGNORE := by
  decide

/-- Button-page usage 0x03 has no entry in the S map and is ignored: a
sample of the repaired unlisted-usage property away from the NULL
corner. -/
theorem xpadneo_mapping_unlisted_sample :
    xpadneo_has_entry ((0x02FD : Nat) == 0x02E0)
      (0x00090003 &&& HID_USAGE_PAGE) (0x00090003 &&& HID_USAGE) = false ∧
    xpadneo_mapping 0x02FD 0x00090003 = some RET_MAP_IGNORE :=
  ⟨by decide,
   xpadneo_mapping_unlisted_ignored 0x02FD 0x00090003 (Or.inr rfl) (by decide)
     (by decide)⟩

/-- Claim C1: the mismatch-correction path fires exactly under observed
WindowsStyle, advertised LinuxStyle and the Button usage page; there it
remaps usage ids 0x01 to 0x0A to the fixed buttons A, B, X, Y, L1, R1,
Select, Start, left stick, right stick in numeric order, emits the button
event and suppresses the usage; under any other dialect or page
combination, Button-page usage 0x01 is not intercepted and falls through
to generic processing. -/
theorem xpadneo_C1_mismatch_correction (observed advertised : Dialect)
    (usage_page usage_id : Nat) (value : Int) :
    (observed = Dialect.windowsStyle → advertised = Dialect.linuxStyle →
      1 ≤ usage_id → usage_id ≤ 0x0A →
      on_usage_value observed advertised HID_UP_BUTTON usage_id value =
        ([input_event.btn
            ([XpadBtn.A, XpadBtn.B, XpadBtn.X, XpadBtn.Y, XpadBtn.L1,
              XpadBtn.R1, XpadBtn.Select, XpadBtn.Start, XpadBtn.LStick,
              XpadBtn.RStick].getD (usage_id - 1) XpadBtn.A) value],
         HookAction.Suppress)) ∧
    (¬(observed = Dialect.windowsStyle ∧ advertised = Dialect.linuxStyle ∧
        usage_page = HID_UP_BUTTON) →
      on_usage_value observed advertised usage_page 0x01 value =
        ([], HookAction.Continue)) := by
  constructor
  · intro h1 h2 hlo hhi
    subst h1
    subst h2
    interval_cases usage_id <;> simp [on_usage_value, mismatch_button]
  · intro hn
    unfold on_usage_value
    rw [if_neg hn]
    rfl

/-- Witness for C1: usage 0x03 is remapped to the X button under the
mismatch, and the same usage page falls through when both dialects are
LinuxStyle. -/
theorem xpadneo_C1_witness :
    on_usage_value Dialect.windowsStyle Dialect.linuxStyle HID_UP_BUTTON 3 1 =
      ([input_event.btn XpadBtn.X 1], HookAction.Suppress) ∧
    on_usage_value Dialect.linuxStyle Dialect.linuxStyle HID_UP_BUTTON 1 1 =
      ([], HookAction.Continue) := by
  constructor
  · have h := (xpadneo_C1_mismatch_correction Dialect.windowsStyle
      Dialect.linuxStyle HID_UP_BUTTON 3 1).1 rfl rfl (by decide) (by decide)
    simpa using h
  · exact (xpadneo_C1_mismatch_correction Dialect.linuxStyle
      Dialect.linuxStyle HID_UP_BUTTON 1 1).2 (by decide)

/-- Field-level description of the battery lookup. -/
theorem decode_battery_spec (st : DeviceState) (b : Nat) :
    (b = 0x80 → (decode_battery st b).cable = true ∧
      (decode_battery st b).capacity = CapacityLevel.unknown) ∧
    (b = 0x84 → (decode_battery st b).cable = false ∧
      (decode_battery st b).capacity = CapacityLevel.critical) ∧
    (b = 0x85 → (decode_battery st b).cable = false ∧
      (decode_battery st b).capacity = CapacityLevel.low) ∧
    (b = 0x86 → (decode_battery st b).cable = false ∧
      (decode_battery st b).capacity = CapacityLevel.normal) ∧
    (b = 0x87 → (decode_battery st b).cable = false ∧
      (decode_battery st b).capacity = CapacityLevel.high) ∧
    (b ≠ 0x80 → b ≠ 0x84 → b ≠ 0x85 → b ≠ 0x86 → b ≠ 0x87 →
      (decode_battery st b).cable = false ∧
      (decode_battery st b).capacity = st.capacity) := by
  refine ⟨?_, ?_, ?_, ?_, ?_, ?_⟩
  · intro hb
    subst hb
    simp [decode_battery]
  · intro hb
    subst hb
    simp [decode_battery]
  · intro hb
    subst hb
    simp [decode_battery]
  · intro hb
    subst hb
    simp [decode_battery]
  · intro hb
    subst hb
    simp [decode_battery]
  · intro h80 h84 h85 h86 h87
    unfold decode_battery
    rw [if_neg h80, if_neg h84, if_neg h85, if_neg h86, if_neg h87]
    exact ⟨rfl, rfl⟩

/-- The battery lookup never touches the advertised dialect. -/
theorem decode_battery_advertised (st : DeviceState) (b : Nat) :
    (decode_battery st b).advertised = st.advertised := by
  unfold decode_battery
  repeat' split
  all_goals rfl

/-- The battery lookup never touches the observed dialect. -/
theorem decode_battery_observed (st : DeviceState) (b : Nat) :
    (decode_battery st b).observed = st.observed := by
  unfold decode_battery
  repeat' split
  all_goals rfl

/-- Claim C2: a report with id 4 is suppressed, the battery collaborator
is notified, the dialect fields are untouched, and the cable state and
capacity level are written according to the fixed lookup on byte 1 of the
payload; in particular byte 0x86 gives capacity Normal and cable state
false. -/
theorem xpadneo_C2_battery_report (st : DeviceState) (payload : List Nat)
    (hlen : 2 ≤ payload.length) :
    (on_raw_report st 4 payload).action = HookAction.Suppress ∧
    (on_raw_report st 4 payload).notified = true ∧
    (on_raw_report st 4 payload).state.advertised = st.advertised ∧
    (on_raw_report st 4 payload).state.observed = st.observed ∧
    (payload.getD 1 0 = 0x80 →
      (on_raw_report st 4 payload).state.cable = true ∧
      (on_raw_report st 4 payload).state.capacity = CapacityLevel.unknown) ∧
    (payload.getD 1 0 = 0x84 →
      (on_raw_report st 4 payload).state.cable = false ∧
      (on_raw_report st 4 payload).state.capacity = CapacityLevel.critical) ∧
    (payload.getD 1 0 = 0x85 →
      (on_raw_report st 4 payload).state.cable = false ∧
      (on_raw_report st 4 payload).state.capacity = CapacityLevel.low) ∧
    (payload.getD 1 0 = 0x86 →
      (on_raw_report st 4 payload).state.cable = false ∧
      (on_raw_report st 4 payload).state.capacity = CapacityLevel.normal) ∧
    (payload.getD 1 0 = 0x87 →
      (on_raw_report st 4 payload).state.cable = false ∧
      (on_raw_report st 4 payload).state.capacity = CapacityLevel.high) ∧
    (payload.getD 1 0 ≠ 0x80 → payload.getD 1 0 ≠ 0x84 →
      payload.getD 1 0 ≠ 0x85 → payload.getD 1 0 ≠ 0x86 →
      payload.getD 1 0 ≠ 0x87 →
      (on_raw_report st 4 payload).state.cable = false ∧
      (on_raw_report st 4 payload).state.capacity = st.capacity) := by
  have hr : on_raw_report st 4 payload =
      { state := decode_battery st (payload.getD 1 0)
        notified := true
        action := HookAction.Suppress } := by
    simp [on_raw_report]
  have hspec := decode_battery_spec st (payload.getD 1 0)
  refine ⟨by simp [hr], by simp [hr],
    by simp [hr, decode_battery_advertised],
    by simp [hr, decode_battery_observed], ?_, ?_, ?_, ?_, ?_, ?_⟩
  · intro hb
    rw [hr]
    exact hspec.1 hb
  · intro hb
    rw [hr]
    exact hspec.2.1 hb
  · intro hb
    rw [hr]
    exact hspec.2.2.1 hb
  · intro hb
    rw [hr]
    exact hspec.2.2.2.1 hb
  · intro hb
    rw [hr]
    exact hspec.2.2.2.2.1 hb
  · intro h80 h84 h85 h86 h87
    rw [hr]
    exact hspec.2.2.2.2.2 h80 h84 h85 h86 h87

/-- Witness for C2: feeding report 4 with payload byte 1 equal to 0x86
suppresses the report, notifies the collaborator and leaves capacity
Normal with the cable unplugged. -/
theorem xpadneo_C2_witness :
    (on_raw_report ⟨Dialect.unknown, Dialect.unknown, true, CapacityLevel.full⟩
      4 [0, 0x86]).action = HookAction.Suppress ∧
    (on_raw_report ⟨Dialect.unknown, Dialect.unknown, true, CapacityLevel.full⟩
      4 [0, 0x86]).notified = true ∧
    (on_raw_report ⟨Dialect.unknown, Dialect.unknown, true, CapacityLevel.full⟩
      4 [0, 0x86]).state.cable = false ∧
    (on_raw_report ⟨Dialect.unknown, Dialect.unknown, true, CapacityLevel.full⟩
      4 [0, 0x86]).state.capacity = CapacityLevel.normal := by
  have h := xpadneo_C2_battery_report
    ⟨Dialect.unknown, Dialect.unknown, true, CapacityLevel.full⟩ [0, 0x86]
    (by decide)
  have h86 := h.2.2.2.2.2.2.2.1 (by decide)
  exact ⟨h.1, h.2.1, h86.1, h86.2⟩

/-- One classification step never changes an advertised dialect that
already holds a concrete value. -/
theorem classifier_step_advertised (st : DeviceState) (i : class_input)
    (h : st.advertised ≠ Dialect.unknown) :
    (classifier_step st i).advertised = st.advertised := by
  cases i with
  | probe n =>
      simp [classifier_step, on_probe, h]
  | report id payload =>
      simp only [classifier_step, on_raw_report]
      by_cases h1 : id = 1
      · simp only [h1, if_pos rfl]
        by_cases h2 : st.observed = Dialect.unknown <;> simp [h2]
      · by_cases h4 : id = 4
        · simp [h1, h4, decode_battery_advertised]
        · simp [h1, h4]

/-- One classification step never changes an observed dialect that
already holds a concrete value. -/
theorem classifier_step_observed (st : DeviceState) (i : class_input)
    (h : st.observed ≠ Dialect.unknown) :
    (classifier_step st i).observed = st.observed := by
  cases i with
  | probe n =>
      by_cases ha : st.advertised = Dialect.unknown <;>
        simp [classifier_step, on_probe, ha]
  | report id payload =>
      simp only [classifier_step, on_raw_report]
      by_cases h1 : id = 1
      · simp [h1, h]
      · by_cases h4 : id = 4
        · simp [h1, h4, decode_battery_observed]
        · simp [h1, h4]

/-- Claim C6: over every sequence of classification inputs (probes with a
report-descriptor length, incoming reports of any id and payload), a
dialect field holding a non-Unknown value never changes. -/
theorem xpadneo_C6_dialect_stability (st : DeviceState)
    (seq : List class_input) :
    (st.advertised ≠ Dialect.unknown →
      (seq.foldl classifier_step st).advertised = st.advertised) ∧
    (st.observed ≠ Dialect.unknown →
      (seq.foldl classifier_step st).observed = st.observed) := by
  induction seq generalizing st with
  | nil => exact ⟨fun _ => rfl, fun _ => rfl⟩
  | cons i rest ih =>
      constructor
      · intro ha
        have hstep := classifier_step_advertised st i ha
        have hrest := (ih (classifier_step st i)).1 (by rw [hstep]; exact ha)
        simp only [List.foldl_cons]
        rw [hrest, hstep]
      · intro ho
        have hstep := classifier_step_observed st i ho
        have hrest := (ih (classifier_step st i)).2 (by rw [hstep]; exact ho)
        simp only [List.foldl_cons]
        rw [hrest, hstep]

/-- Witness for C6: a device classified as advertised LinuxStyle and
observed WindowsStyle keeps both values across a re-probe, another
report-ID-1 payload of a different length, and a battery report. -/
theorem xpadneo_C6_witness :
    ([class_input.probe 307,
      class_input.report 1 (List.replicate 17 0),
      class_input.report 4 [0, 0x80]].foldl classifier_step
      ⟨Dialect.linuxStyle, Dialect.windowsStyle, false,
        CapacityLevel.unknown⟩).advertised = Dialect.linuxStyle ∧
    ([class_input.probe 307,
      class_input.report 1 (List.replicate 17 0),
      class_input.report 4 [0, 0x80]].foldl classifier_step
      ⟨Dialect.linuxStyle, Dialect.windowsStyle, false,
        CapacityLevel.unknown⟩).observed = Dialect.windowsStyle := by
  have h := xpadneo_C6_dialect_stability
    ⟨Dialect.linuxStyle, Dialect.windowsStyle, false, CapacityLevel.unknown⟩
    [class_input.probe 307,
     class_input.report 1 (List.replicate 17 0),
     class_input.report 4 [0, 0x80]]
  exact ⟨h.1 (by decide), h.2 (by decide)⟩
